import Mathlib

/-!
Verification of the haro-python-sdk client (`haro/api.py`) against its
natural-language specification.

The development shallowly embeds the Python module: Python runtime values are
modelled by `PyVal`, raised exceptions by `Except` results, and the HTTP
transport (the `requests` library) by an oracle that supplies the outcome of
each request.  Machine-level concerns (URL strings, TLS, byte encodings) are
outside the model; every branch of the client's own control flow is embedded.
-/

/-- A Python runtime value, restricted to the shapes the client manipulates:
`None`, booleans, integers, floats (modelled exactly as rationals, since the
client never performs float arithmetic), strings, lists, and string-keyed
dictionaries (the module only ever builds or consumes string-keyed dicts). -/
inductive PyVal where
  | none
  | bool (b : Bool)
  | int (n : Int)
  | float (q : Rat)
  | str (s : String)
  | list (xs : List PyVal)
  | dict (kvs : List (String × PyVal))

mutual

/-- Python `repr` of a value, as used by `str.format` on containers.  For
strings inside containers CPython also escapes special characters and for
floats it prints the shortest decimal form; those renderings are approximated
(no claim inspects them). -/
def pyRepr : PyVal → String
  | PyVal.none => "None"
  | PyVal.bool true => "True"
  | PyVal.bool false => "False"
  | PyVal.int n => toString n
  | PyVal.float q => toString q
  | PyVal.str s => "\x27" ++ s ++ "\x27"
  | PyVal.list xs => "[" ++ String.intercalate ", " (pyReprList xs) ++ "]"
  | PyVal.dict kvs => "\x7b" ++ String.intercalate ", " (pyReprDict kvs) ++ "\x7d"

def pyReprList : List PyVal → List String
  | [] => []
  | v :: rest => pyRepr v :: pyReprList rest

def pyReprDict : List (String × PyVal) → List String
  | [] => []
  | (k, v) :: rest => ("\x27" ++ k ++ "\x27" ++ ": " ++ pyRepr v) :: pyReprDict rest

end

/-- Python `str` of a value (what `"{}".format(v)` interpolates): the string
itself for strings, `repr` otherwise. -/
def pyStr : PyVal → String
  | PyVal.str s => s
  | v => pyRepr v

/-- Python truthiness of a value. -/
def pyTruthy : PyVal → Bool
  | PyVal.none => false
  | PyVal.bool b => b
  | PyVal.int n => decide (n ≠ 0)
  | PyVal.float q => decide (q ≠ 0)
  | PyVal.str s => decide (s.length ≠ 0)
  | PyVal.list xs => decide (xs.length ≠ 0)
  | PyVal.dict kvs => decide (kvs.length ≠ 0)

/-- Python `int(v)`: `some` the converted integer, or `Option.none` when the
conversion raises (`TypeError`/`ValueError`).  `int` of a float truncates
toward zero; `int` of a string parses a decimal literal (modelled by
`String.toInt?`); `bool` is a subclass of `int`. -/
def pyToInt : PyVal → Option Int
  | PyVal.int n => some n
  | PyVal.bool b => some (if b then 1 else 0)
  | PyVal.float q => some (if 0 ≤ q then q.floor else q.ceil)
  | PyVal.str s => s.toInt?
  | _ => Option.none

/-- Membership in the character class `[.a-zA-Z0-9_-]` of
`ALPHA_NUMERIC_REGEX` (`haro/api.py` line 12). -/
def isAlphaNumericChar (c : Char) : Bool :=
  c = '.' || ('a' ≤ c && c ≤ 'z') || ('A' ≤ c && c ≤ 'Z') ||
    ('0' ≤ c && c ≤ '9') || c = '_' || c = '-'

/-- `re.match(ALPHA_NUMERIC_REGEX, s)` is truthy, for the fixed pattern
`^[.a-zA-Z0-9_-]{1,128}$`.  CPython semantics: `re.match` anchors at the start,
and `$` matches at the end of the string or just before a newline that is the
string's last character; so the pattern accepts 1 to 128 class characters
optionally followed by a single trailing newline. -/
def re_match_alpha_numeric (s : String) : Bool :=
  let core := match s.data.getLast? with
    | some c => if c = '\n' then s.data.dropLast else s.data
    | Option.none => s.data
  decide (1 ≤ core.length) && decide (core.length ≤ 128) && core.all isAlphaNumericChar

/-- Bounds (in milliseconds since the epoch) within which
`datetime.datetime.fromtimestamp(ts / 1000.0)` succeeds.  Modelled from
CPython: `fromtimestamp` raises `OverflowError`/`ValueError` when the
converted date falls outside years 1..9999; the bounds are the UTC ones (the
local-timezone offset, at most hours, is irrelevant at the scale of every
input considered here). -/
def MIN_VALID_TIMESTAMP_MS : Int := -62135596800000

def MAX_VALID_TIMESTAMP_MS : Int := 253402300799999

/-- `datetime.datetime.fromtimestamp(ts / 1000.0)` does not raise. -/
def fromtimestamp_ok (ts : Int) : Bool :=
  decide (MIN_VALID_TIMESTAMP_MS ≤ ts) && decide (ts ≤ MAX_VALID_TIMESTAMP_MS)

/-- The `Event` object after a successful `Event.__init__`: the five field
assignments plus the already-converted integer timestamp (`haro/api.py`
lines 39-47). -/
structure Event where
  id : PyVal
  action : PyVal
  item : PyVal
  user : PyVal
  context : PyVal
  timestamp : Int

/-- `Event.__init__(id, action, item, timestamp, user, context)`
(`haro/api.py` lines 29-47): `self.context = context or {}`, and
`int(timestamp)` with `ValueError`/`TypeError`/`OverflowError` re-raised as
`ValueError("timestamp must be an int, got: {}".format(timestamp))`. -/
def Event.init (id action item timestamp user context : PyVal) : Except String Event :=
  let ctx := if pyTruthy context then context else PyVal.dict []
  match pyToInt timestamp with
  | some ts => Except.ok { id := id, action := action, item := item, user := user,
                           context := ctx, timestamp := ts }
  | Option.none => Except.error ("timestamp must be an int, got: " ++ pyStr timestamp)

/-- `Event.as_dict` (`haro/api.py` lines 49-51). -/
def Event.as_dict (e : Event) : PyVal :=
  PyVal.dict [("id", e.id), ("action", e.action), ("item", e.item),
    ("ts", PyVal.int e.timestamp), ("user", e.user), ("context", e.context)]

/-- One iteration of the `for required_alphanumeric in (...)` loop of
`Event.validate` (`haro/api.py` lines 59-68): `None` raises
`"{} is required"`; `re.match` on a non-string raises `TypeError`, caught and
treated as no match; no match raises `"{} is an invalid value for {}"`. -/
def check_required_alphanumeric (fieldName : String) (value : PyVal) : Except String Unit :=
  match value with
  | PyVal.none => Except.error (fieldName ++ " is required")
  | PyVal.str s =>
    if re_match_alpha_numeric s then Except.ok ()
    else Except.error (s ++ " is an invalid value for " ++ fieldName)
  | v => Except.error (pyStr v ++ " is an invalid value for " ++ fieldName)

/-- `isinstance(v, (int, float)) or isinstance(v, string_types)`
(`haro/api.py` line 78).  In Python `bool` is a subclass of `int`, so
booleans pass the numeric check. -/
def is_numeric_or_string : PyVal → Bool
  | PyVal.int _ => true
  | PyVal.float _ => true
  | PyVal.bool _ => true
  | PyVal.str _ => true
  | _ => false

/-- The `for (k, v) in self.context.items()` loop of `Event.validate`
(`haro/api.py` lines 75-79).  Note: in the source the message of the
context-value error is `"context values must either be numeric or string.
Got: ".format(v)` — the format string has no placeholder, so the offending
value is not interpolated and the message is that constant string. -/
def validate_context_items : List (String × PyVal) → Except String Unit
  | [] => Except.ok ()
  | (k, v) :: rest =>
    if re_match_alpha_numeric k then
      if is_numeric_or_string v then validate_context_items rest
      else Except.error "context values must either be numeric or string. Got: "
    else Except.error (k ++ " is an invalid context key")

/-- `Event.validate` (`haro/api.py` lines 53-79), checking in source order:
the four required identifier fields, the timestamp's date-convertibility, that
the context is a dict, then each context item. -/
def Event.validate (e : Event) : Except String Unit :=
  match check_required_alphanumeric "id" e.id with
  | Except.error m => Except.error m
  | Except.ok _ =>
    match check_required_alphanumeric "action" e.action with
    | Except.error m => Except.error m
    | Except.ok _ =>
      match check_required_alphanumeric "item" e.item with
      | Except.error m => Except.error m
      | Except.ok _ =>
        match check_required_alphanumeric "user" e.user with
        | Except.error m => Except.error m
        | Except.ok _ =>
          if fromtimestamp_ok e.timestamp then
            match e.context with
            | PyVal.dict kvs => validate_context_items kvs
            | ctx => Except.error ("Event context must be a dictionary. Got: " ++ pyStr ctx)
          else
            Except.error ("timestamp is not valid: " ++ toString e.timestamp)




/-! ## The HTTP layer

The `requests` library is modelled by an oracle giving the outcome of each
request the client makes.  A request either raises a transport-level
exception inside `requests.post`/`requests.get` itself (connection failure:
`requests.exceptions.ConnectionError`, which is neither `requests.HTTPError`
nor `urllib3.exceptions.RequestError`), or returns a response object. -/

/-- An HTTP response object as the client consumes it: the status code,
whether `r.content` is non-empty (truthy), the result of `r.json()` (`some`
the decoded value, `Option.none` when decoding raises), and the response
headers. -/
structure HttpResponse where
  status : Nat
  contentNonempty : Bool
  jsonBody : Option PyVal
  headers : List (String × String)

/-- The outcome of one `requests.post`/`requests.get` call. -/
inductive RequestOutcome where
  | raised (msg : String)
  | resp (r : HttpResponse)

/-- A raised Python exception, by kind, as the client can surface it. -/
inductive PyError where
  | valueError (msg : String)
  | ioError (msg : String)
  | typeError (msg : String)
  | keyError (key : String)
  | attributeError (msg : String)
  | transportError (msg : String)

/-- `r.raise_for_status()` raises `requests.HTTPError` exactly for 4xx and
5xx status codes. -/
def raise_for_status_fails (status : Nat) : Bool :=
  decide (400 ≤ status) && decide (status < 600)

/-- `str` of the `requests.HTTPError` built by `raise_for_status`.  Modelled
from the requests library ("%s Client Error ..." / "%s Server Error ..."); the
reason phrase and URL it interpolates are outside the model. -/
def http_error_str (status : Nat) : String :=
  if status < 500 then toString status ++ " Client Error"
  else toString status ++ " Server Error"

/-- `_MAX_RETRIES` (`haro/api.py` line 19). -/
def MAX_RETRIES : Nat := 3

/-- First-match lookup in a string-keyed dict (keys are unique by
construction everywhere the client builds or receives a dict). -/
def dict_lookup : List (String × PyVal) → String → Option PyVal
  | [], _ => Option.none
  | (k0, v0) :: rest, k => if k0 = k then some v0 else dict_lookup rest k

/-- Python `d.get(k, default)` on a dict. -/
def dict_getD (kvs : List (String × PyVal)) (k : String) (default : PyVal) : PyVal :=
  match dict_lookup kvs k with
  | some v => v
  | Option.none => default

/-- `HaroAPIClient._send_events_with_retry` (`haro/api.py` lines 115-141),
with the request body/headers/urls kept but not inspected (the visible result
does not depend on them) and instrumented with the index of the attempt being
made; the returned `Nat` is the total number of requests issued.  Faithful
control flow: the `try` block wraps only `r.raise_for_status()`, so a
transport exception raised by `requests.post` itself propagates; the special
400 branch needs `r.json()` truthy, and `r.json()` on an undecodable body
raises a `JSONDecodeError` (a `ValueError`) inside the condition itself; on a
2xx/3xx response `data.get` on a non-dict JSON body raises
`AttributeError`. -/
def send_events_with_retry (oracle : Nat → RequestOutcome) (events : List Event)
    (validate : Bool) (num_retries : Nat) (attempt : Nat) :
    Except PyError (PyVal × PyVal) × Nat :=
  match oracle attempt with
  | RequestOutcome.raised msg => (Except.error (PyError.transportError msg), attempt + 1)
  | RequestOutcome.resp r =>
    if r.status = 400 && r.contentNonempty && r.jsonBody.isNone then
      (Except.error (PyError.valueError "JSONDecodeError"), attempt + 1)
    else if r.status = 400 && r.contentNonempty && pyTruthy (r.jsonBody.getD PyVal.none) then
      (Except.error (PyError.valueError
        ("Server event validation failed. Server message was: " ++
          pyStr (r.jsonBody.getD PyVal.none))), attempt + 1)
    else if raise_for_status_fails r.status then
      match num_retries with
      | n + 1 => send_events_with_retry oracle events validate n (attempt + 1)
      | 0 => (Except.error (PyError.ioError
          ("Unable to send events to Haro. Original error was: " ++
            http_error_str r.status)), attempt + 1)
    else
      match r.jsonBody with
      | some (PyVal.dict kvs) =>
        (Except.ok (dict_getD kvs "count" (PyVal.int 0),
          dict_getD kvs "errors" (PyVal.list [])), attempt + 1)
      | some _ => (Except.error (PyError.attributeError "get"), attempt + 1)
      | Option.none => (Except.error (PyError.valueError "JSONDecodeError"), attempt + 1)

/-- The `if validate: for e in events: e.validate()` loop of
`HaroAPIClient.send_events` (`haro/api.py` lines 110-112): the first
validation error aborts. -/
def validate_all : List Event → Except String Unit
  | [] => Except.ok ()
  | e :: rest =>
    match e.validate with
    | Except.ok _ => validate_all rest
    | Except.error m => Except.error m

/-- `HaroAPIClient.send_events` (`haro/api.py` lines 98-113).  The returned
`Nat` counts the HTTP requests issued. -/
def send_events (oracle : Nat → RequestOutcome) (events : List Event) (validate : Bool) :
    Except PyError (PyVal × PyVal) × Nat :=
  if validate then
    match validate_all events with
    | Except.error m => (Except.error (PyError.valueError m), 0)
    | Except.ok _ => send_events_with_retry oracle events validate MAX_RETRIES 0
  else send_events_with_retry oracle events validate MAX_RETRIES 0






/-! ## Prediction reads -/

/-- Python `s.startswith(pre)`: character-by-character test that `pre` is an
initial segment of `s`. -/
def chars_start_with : List Char → List Char → Bool
  | [], _ => true
  | _ :: _, [] => false
  | p :: ps, c :: cs => p == c && chars_start_with ps cs

def pyStartsWith (s pre : String) : Bool :=
  chars_start_with pre.data s.data

/-- Python `v[k]` for a string subscript: a `KeyError` when the key is absent
from a dict, a `TypeError` when `v` is not a dict at all. -/
def py_index (v : PyVal) (k : String) : Except PyError PyVal :=
  match v with
  | PyVal.dict kvs =>
    match dict_lookup kvs k with
    | some x => Except.ok x
    | Option.none => Except.error (PyError.keyError k)
  | _ => Except.error (PyError.typeError ("string indices must be integers: " ++ k))

/-- Python `v.get(k, default)`.  Only reached on values that already
answered a string subscript, hence dicts; on anything else `.get` would raise
`AttributeError`, modelled as the default (unreachable in this client). -/
def py_getD (v : PyVal) (k : String) (default : PyVal) : PyVal :=
  match v with
  | PyVal.dict kvs => dict_getD kvs k default
  | _ => default

/-- The first occurrence of `"X-"` in the characters removed, as
`k.replace("X-", "", 1)` does. -/
def replace_first_x_dash_chars : List Char → List Char
  | 'X' :: '-' :: rest => rest
  | c :: rest => c :: replace_first_x_dash_chars rest
  | [] => []

def replace_first_x_dash (s : String) : String :=
  String.mk (replace_first_x_dash_chars s.data)

/-- `_get_meta_from_response_headers` (`haro/api.py` lines 430-436): the
headers whose name starts with `"X-"`, with the first occurrence of `"X-"`
(necessarily the prefix) removed from the name.  The stripped names are
pairwise distinct whenever the header names are, so the list faithfully
represents the dict the source builds. -/
def get_meta_from_response_headers (headers : List (String × String)) : List (String × String) :=
  headers.filterMap fun kv =>
    if pyStartsWith kv.1 "X-" then some (replace_first_x_dash kv.1, kv.2) else Option.none

/-- `RankResult` (`haro/api.py` lines 348-364); `meta=None` defaults to the
empty dict. -/
structure RankResult where
  entities : PyVal
  scores : PyVal
  pid : String
  name : PyVal
  meta : List (String × String)

/-- `NumericPredictionResult` (`haro/api.py` lines 370-384). -/
structure NumericPredictionResult where
  value : PyVal
  pid : String
  name : PyVal
  meta : List (String × String)

/-- `AnticipateResult` (`haro/api.py` lines 390-404). -/
structure AnticipateResult where
  value : PyVal
  pid : String
  name : PyVal
  meta : List (String × String)

/-- `CustomResult` (`haro/api.py` lines 410-424). -/
structure CustomResult where
  value : PyVal
  pid : String
  name : PyVal
  meta : List (String × String)

/-- `HaroAPIClient.rank` (`haro/api.py` lines 152-188): a single GET; the
`try` wraps only `raise_for_status`, whose `HTTPError` is re-raised as
`IOError("Unable to make a rank prediction. Error was: {}".format(e))`; on
success the body must decode and carry `entities`.  The `subset`, `top`,
`include_scores` arguments only shape the query string, which is outside the
model; the returned `Nat` counts the HTTP requests issued. -/
def rank (outcome : RequestOutcome) (pid user : String) (name : PyVal) :
    Except PyError RankResult × Nat :=
  match outcome with
  | RequestOutcome.raised msg => (Except.error (PyError.transportError msg), 1)
  | RequestOutcome.resp r =>
    if raise_for_status_fails r.status then
      (Except.error (PyError.ioError
        ("Unable to make a rank prediction. Error was: " ++ http_error_str r.status)), 1)
    else
      match r.jsonBody with
      | Option.none => (Except.error (PyError.valueError "JSONDecodeError"), 1)
      | some response =>
        match py_index response "entities" with
        | Except.error e => (Except.error e, 1)
        | Except.ok entities =>
          (Except.ok ⟨entities, py_getD response "scores" PyVal.none, pid, name,
            get_meta_from_response_headers r.headers⟩, 1)

/-- `HaroAPIClient.predict` (`haro/api.py` lines 190-215). -/
def predict (outcome : RequestOutcome) (pid user : String) (name : PyVal) :
    Except PyError NumericPredictionResult × Nat :=
  match outcome with
  | RequestOutcome.raised msg => (Except.error (PyError.transportError msg), 1)
  | RequestOutcome.resp r =>
    if raise_for_status_fails r.status then
      (Except.error (PyError.ioError
        ("Unable to make a numerical prediction. Error was: " ++ http_error_str r.status)), 1)
    else
      match r.jsonBody with
      | Option.none => (Except.error (PyError.valueError "JSONDecodeError"), 1)
      | some response =>
        match py_index response "value" with
        | Except.error e => (Except.error e, 1)
        | Except.ok value =>
          (Except.ok ⟨value, pid, name, get_meta_from_response_headers r.headers⟩, 1)

/-- `HaroAPIClient.anticipate` (`haro/api.py` lines 217-243). -/
def anticipate (outcome : RequestOutcome) (pid user : String) (name : PyVal) :
    Except PyError AnticipateResult × Nat :=
  match outcome with
  | RequestOutcome.raised msg => (Except.error (PyError.transportError msg), 1)
  | RequestOutcome.resp r =>
    if raise_for_status_fails r.status then
      (Except.error (PyError.ioError
        ("Unable to make an anticipate prediction. Error was: " ++ http_error_str r.status)), 1)
    else
      match r.jsonBody with
      | Option.none => (Except.error (PyError.valueError "JSONDecodeError"), 1)
      | some response =>
        match py_index response "value" with
        | Except.error e => (Except.error e, 1)
        | Except.ok value =>
          (Except.ok ⟨value, pid, name, get_meta_from_response_headers r.headers⟩, 1)

/-- `HaroAPIClient.custom` (`haro/api.py` lines 245-270). -/
def custom (outcome : RequestOutcome) (pid user : String) (name : PyVal) :
    Except PyError CustomResult × Nat :=
  match outcome with
  | RequestOutcome.raised msg => (Except.error (PyError.transportError msg), 1)
  | RequestOutcome.resp r =>
    if raise_for_status_fails r.status then
      (Except.error (PyError.ioError
        ("Unable to make a custom prediction. Error was: " ++ http_error_str r.status)), 1)
    else
      match r.jsonBody with
      | Option.none => (Except.error (PyError.valueError "JSONDecodeError"), 1)
      | some response =>
        match py_index response "value" with
        | Except.error e => (Except.error e, 1)
        | Except.ok value =>
          (Except.ok ⟨value, pid, name, get_meta_from_response_headers r.headers⟩, 1)

/-- The tagged union of the typed results `all_predictions` can return. -/
inductive PredictionResult where
  | rank (r : RankResult)
  | numeric (r : NumericPredictionResult)
  | anticipate (r : AnticipateResult)
  | custom (r : CustomResult)

/-- `HaroAPIClient._get_predictor_type_from_pid` (`haro/api.py` lines
323-328): first prefix match in the fixed order, else a raised
`ValueError`. -/
def get_predictor_type_from_pid (pid : String) : Except PyError String :=
  if pyStartsWith pid "rank" then Except.ok "rank"
  else if pyStartsWith pid "predict" then Except.ok "predict"
  else if pyStartsWith pid "anticipate" then Except.ok "anticipate"
  else if pyStartsWith pid "custom" then Except.ok "custom"
  else Except.error (PyError.valueError ("Unknown predictor type in pid: " ++ pid))

/-- One iteration of the `for result in response` loop of
`HaroAPIClient.all_predictions` (`haro/api.py` lines 298-320): `some` a typed
result to append, `Option.none` for the `else: continue` branch, or a raised
exception.  `pid.startswith` on a non-string pid raises `AttributeError`.
Note that `_get_predictor_type_from_pid` raises `ValueError` on an unknown
prefix before the `else: continue` branch can ever be reached, so that branch
is dead code. -/
def build_prediction_result (result : PyVal) : Except PyError (Option PredictionResult) :=
  match py_index result "pid" with
  | Except.error e => Except.error e
  | Except.ok pidV =>
    match pidV with
    | PyVal.str pid =>
      (match get_predictor_type_from_pid pid with
       | Except.error e => Except.error e
       | Except.ok predType =>
         if predType = "rank" then
           match py_index result "predictions" with
           | Except.error e => Except.error e
           | Except.ok preds =>
             match py_index preds "entities" with
             | Except.error e => Except.error e
             | Except.ok entities =>
               match py_index result "name" with
               | Except.error e => Except.error e
               | Except.ok nameV =>
                 Except.ok (some (PredictionResult.rank
                   ⟨entities, py_getD preds "scores" PyVal.none, pid, nameV, []⟩))
         else if predType = "predict" then
           match py_index result "predictions" with
           | Except.error e => Except.error e
           | Except.ok preds =>
             match py_index preds "value" with
             | Except.error e => Except.error e
             | Except.ok value =>
               match py_index result "name" with
               | Except.error e => Except.error e
               | Except.ok nameV =>
                 Except.ok (some (PredictionResult.numeric ⟨value, pid, nameV, []⟩))
         else if predType = "anticipate" then
           match py_index result "predictions" with
           | Except.error e => Except.error e
           | Except.ok preds =>
             match py_index preds "value" with
             | Except.error e => Except.error e
             | Except.ok value =>
               match py_index result "name" with
               | Except.error e => Except.error e
               | Except.ok nameV =>
                 Except.ok (some (PredictionResult.anticipate ⟨value, pid, nameV, []⟩))
         else if predType = "custom" then
           match py_index result "predictions" with
           | Except.error e => Except.error e
           | Except.ok preds =>
             match py_index preds "value" with
             | Except.error e => Except.error e
             | Except.ok value =>
               match py_index result "name" with
               | Except.error e => Except.error e
               | Except.ok nameV =>
                 Except.ok (some (PredictionResult.custom ⟨value, pid, nameV, []⟩))
         else Except.ok Option.none)
    | _ => Except.error (PyError.attributeError "startswith")

/-- The whole `for result in response` loop: results are appended in batch
order; a raised exception aborts the loop. -/
def process_prediction_results : List PyVal → Except PyError (List PredictionResult)
  | [] => Except.ok []
  | result :: rest =>
    match build_prediction_result result with
    | Except.error e => Except.error e
    | Except.ok opt =>
      match process_prediction_results rest with
      | Except.error e => Except.error e
      | Except.ok others =>
        Except.ok (match opt with
          | some pr => pr :: others
          | Option.none => others)

/-- `HaroAPIClient.all_predictions` (`haro/api.py` lines 272-321): a single
GET, the same error mapping as the other reads, then the batch-mapping loop.
Iterating a JSON body that is not an array is modelled as a raised
`TypeError` (a JSON object would iterate its keys, which then fail string
subscripting). -/
def all_predictions (outcome : RequestOutcome) (user : String) :
    Except PyError (List PredictionResult) × Nat :=
  match outcome with
  | RequestOutcome.raised msg => (Except.error (PyError.transportError msg), 1)
  | RequestOutcome.resp r =>
    if raise_for_status_fails r.status then
      (Except.error (PyError.ioError
        ("Unable to get all user predictions. Error was: " ++ http_error_str r.status)), 1)
    else
      match r.jsonBody with
      | Option.none => (Except.error (PyError.valueError "JSONDecodeError"), 1)
      | some (PyVal.list results) => (process_prediction_results results, 1)
      | some _ => (Except.error (PyError.typeError "not a list of records"), 1)



/-! ## Shared lemmas -/

/-- The validation loop of `send_events` surfaces the first failing event's
error. -/
theorem validate_all_first_error (pre : List Event) (e : Event) (post : List Event)
    (m : String) (hpre : ∀ x ∈ pre, x.validate = Except.ok ())
    (he : e.validate = Except.error m) :
    validate_all (pre ++ e :: post) = Except.error m := by
  induction pre with
  | nil => simp [validate_all, he]
  | cons x xs ih =>
    have hx := hpre x (List.mem_cons_self x xs)
    simp only [List.cons_append, validate_all, hx]
    exact ih fun y hy => hpre y (List.mem_cons_of_mem x hy)

/-- A context whose every key matches the pattern and whose every value is
numeric-or-string passes the context loop. -/
theorem validate_context_items_ok (ctx : List (String × PyVal))
    (h : ∀ p ∈ ctx, re_match_alpha_numeric p.1 = true ∧ is_numeric_or_string p.2 = true) :
    validate_context_items ctx = Except.ok () := by
  induction ctx with
  | nil => rfl
  | cons p rest ih =>
    obtain ⟨k, v⟩ := p
    have hp := h (k, v) (List.mem_cons_self _ _)
    simp only [validate_context_items, hp.1, hp.2, if_true]
    exact ih fun q hq => h q (List.mem_cons_of_mem _ hq)

/-! ## Claim C3 -/

/-- Claim C3: with `validate=true`, `send_events` validates every event and,
when one is invalid, raises the first invalid event's validation error with
zero HTTP requests issued — no partial submission. -/
theorem C3_validate_true_aborts_before_any_request (oracle : Nat → RequestOutcome)
    (pre post : List Event) (e : Event) (m : String)
    (hpre : ∀ x ∈ pre, x.validate = Except.ok ())
    (he : e.validate = Except.error m) :
    send_events oracle (pre ++ e :: post) true =
      (Except.error (PyError.valueError m), 0) := by
  have h := validate_all_first_error pre e post m hpre he
  simp [send_events, h]

/-- Witness for C3 at a concrete batch: one event whose `action` is `"a1?"`. -/
theorem C3_witness :
    send_events (fun _ => RequestOutcome.raised "boom")
      ([] ++ (⟨PyVal.str "event-id-1", PyVal.str "a1?", PyVal.str "i1", PyVal.str "u1",
        PyVal.dict [], 0⟩ : Event) :: []) true =
      (Except.error (PyError.valueError "a1? is an invalid value for action"), 0) :=
  C3_validate_true_aborts_before_any_request (fun _ => RequestOutcome.raised "boom")
    [] [] _ _ (fun x hx => absurd hx (List.not_mem_nil x)) rfl

/-! ## Claim C2 -/

/-- Claim C2 (code behavior at the claim's failing input): when every attempt
fails with a transport-level error raised by `requests.post` itself, the
exception propagates after a single request — the `try` block wraps only
`raise_for_status`, so there is no retry and no wrapping `IOError`, contrary
to the claim's 1 + 3 = 4 attempts. -/
theorem C2_transport_error_not_retried :
    send_events (fun _ => RequestOutcome.raised "Connection refused")
      [⟨PyVal.str "event-id-1", PyVal.str "action_1", PyVal.str "item-1", PyVal.str "u1",
        PyVal.dict [("k1", PyVal.str "v1")], 1760000000000⟩] true =
      (Except.error (PyError.transportError "Connection refused"), 1) := rfl

/-! ## Claim C4 -/

/-- Counterexample to C4: a response with HTTP status 400 and the non-empty
JSON body `{}` (a falsy JSON value) is NOT surfaced as an immediate
validation error — it falls through to `raise_for_status` and is retried to
exhaustion, ending in an `IOError` after 4 attempts. -/
theorem C4_counterexample_falsy_json_body_retried :
    send_events (fun _ => RequestOutcome.resp ⟨400, true, some (PyVal.dict []), []⟩)
      [] true =
      (Except.error (PyError.ioError
        "Unable to send events to Haro. Original error was: 400 Client Error"), 4) := rfl

/-- Claim C4 as amended: a 400 response whose body decodes to a TRUTHY JSON
value (e.g. a non-empty object) raises the server validation `ValueError`
immediately, after exactly one request and with no retry. -/
theorem C4_amended_truthy_400_json_immediate (oracle : Nat → RequestOutcome)
    (events : List Event) (r : HttpResponse) (j : PyVal)
    (hv : validate_all events = Except.ok ())
    (h0 : oracle 0 = RequestOutcome.resp r)
    (hs : r.status = 400) (hc : r.contentNonempty = true)
    (hj : r.jsonBody = some j) (ht : pyTruthy j = true) :
    send_events oracle events true =
      (Except.error (PyError.valueError
        ("Server event validation failed. Server message was: " ++ pyStr j)), 1) := by
  simp only [send_events, hv, if_true]
  unfold send_events_with_retry
  rw [h0]
  simp [hs, hc, hj, ht]

/-- Witness for the amended C4 at a concrete 400 response with body
`{"error": "bad"}`. -/
theorem C4_witness :
    pyTruthy (PyVal.dict [("error", PyVal.str "bad")]) = true ∧
    send_events
      (fun _ => RequestOutcome.resp ⟨400, true, some (PyVal.dict [("error", PyVal.str "bad")]), []⟩)
      [] true =
      (Except.error (PyError.valueError
        ("Server event validation failed. Server message was: " ++
          pyStr (PyVal.dict [("error", PyVal.str "bad")]))), 1) :=
  ⟨rfl, C4_amended_truthy_400_json_immediate _ []
    ⟨400, true, some (PyVal.dict [("error", PyVal.str "bad")]), []⟩ _ rfl rfl rfl rfl rfl rfl⟩

/-! ## Claim C1 -/

/-- Claim C1 (code behavior at the claim's failing input): in the
`all_predictions` batch mapping, an entry whose pid starts with none of the
four known prefixes makes `_get_predictor_type_from_pid` raise
`ValueError` — the whole call raises instead of silently skipping the entry,
and the well-formed `rank-` entry of the same batch is discarded with it.
The `else: continue` branch the claim describes is dead code. -/
theorem C1_all_predictions_unknown_pid_raises :
    all_predictions (RequestOutcome.resp ⟨200, true, some (PyVal.list
      [PyVal.dict [("pid", PyVal.str "rank-items-for-action-watch"),
         ("name", PyVal.str "rank-watch"),
         ("predictions", PyVal.dict [("entities",
            PyVal.list [PyVal.str "item-3", PyVal.str "item-1", PyVal.str "item-2"])])],
       PyVal.dict [("pid", PyVal.str "foo-1"), ("name", PyVal.str "f"),
         ("predictions", PyVal.dict [("value", PyVal.int 1)])]]), []⟩) "u1" =
      (Except.error (PyError.valueError "Unknown predictor type in pid: foo-1"), 1) := rfl

/-! ## Claim C6 -/

/-- Claim C6: a timestamp that `int()` cannot convert (`None`) is rejected
with a `ValueError` already at `Event` construction; a timestamp of `10**100`
fails `validate()` with the date-conversion error; a current
epoch-milliseconds timestamp validates. -/
theorem C6_timestamp_construction_and_range :
    Event.init (PyVal.str "event-id-1") (PyVal.str "action_1") (PyVal.str "item-1")
      PyVal.none (PyVal.str "u1") (PyVal.dict [("k1", PyVal.str "v1")]) =
      Except.error "timestamp must be an int, got: None" ∧
    Event.validate ⟨PyVal.str "event-id-1", PyVal.str "action_1", PyVal.str "item-1",
      PyVal.str "u1", PyVal.dict [("k1", PyVal.str "v1")],
      10000000000000000000000000000000000000000000000000000000000000000000000000000000000000000000000000000⟩ =
      Except.error ("timestamp is not valid: " ++ toString
        (10000000000000000000000000000000000000000000000000000000000000000000000000000000000000000000000000000 : Int)) ∧
    Event.validate ⟨PyVal.str "event-id-1", PyVal.str "action_1", PyVal.str "item-1",
      PyVal.str "u1", PyVal.dict [("k1", PyVal.str "v1")], 1760000000000⟩ =
      Except.ok () :=
  ⟨rfl, rfl, rfl⟩

/-! ## Claim C9 -/

/-- Claim C9 (code behavior at the claim's failing input): for an event whose
context carries the non-scalar value `{"k3": [1, 2]}`, the raised error's
message is the constant string `"context values must either be numeric or
string. Got: "` — the offending value is NOT named, because the format string
at `haro/api.py` line 79 has no placeholder. -/
theorem C9_context_value_error_message_constant :
    Event.validate ⟨PyVal.str "event-id-1", PyVal.str "action_1", PyVal.str "item-1",
      PyVal.str "u1",
      PyVal.dict [("k2", PyVal.dict [("k3", PyVal.list [PyVal.int 1, PyVal.int 2])])],
      1760000000000⟩ =
      Except.error "context values must either be numeric or string. Got: " := rfl

/-! ## Claim C10 -/

/-- Claim C10: an otherwise-valid event whose context maps a pattern-valid
key to a Python boolean validates successfully — `bool` is a subclass of
`int`, so booleans pass the `isinstance(v, (int, float))` check. -/
theorem C10_bool_context_values_accepted (a b c d k : String) (ts : Int) (bv : Bool)
    (ctx1 ctx2 : List (String × PyVal))
    (ha : re_match_alpha_numeric a = true) (hb : re_match_alpha_numeric b = true)
    (hc : re_match_alpha_numeric c = true) (hd : re_match_alpha_numeric d = true)
    (hts : fromtimestamp_ok ts = true) (hk : re_match_alpha_numeric k = true)
    (h1 : ∀ p ∈ ctx1, re_match_alpha_numeric p.1 = true ∧ is_numeric_or_string p.2 = true)
    (h2 : ∀ p ∈ ctx2, re_match_alpha_numeric p.1 = true ∧ is_numeric_or_string p.2 = true) :
    Event.validate ⟨PyVal.str a, PyVal.str b, PyVal.str c, PyVal.str d,
      PyVal.dict (ctx1 ++ (k, PyVal.bool bv) :: ctx2), ts⟩ = Except.ok () := by
  have hctx : validate_context_items (ctx1 ++ (k, PyVal.bool bv) :: ctx2) = Except.ok () := by
    apply validate_context_items_ok
    intro p hp
    rcases List.mem_append.1 hp with hp1 | hp2
    · exact h1 p hp1
    · rcases List.mem_cons.1 hp2 with hpk | hp2
      · subst hpk; exact ⟨hk, rfl⟩
      · exact h2 p hp2
  simp [Event.validate, check_required_alphanumeric, ha, hb, hc, hd, hts, hctx]

/-- Witness for C10: a concrete event with context `{"k1": True}`. -/
theorem C10_witness :
    Event.validate ⟨PyVal.str "event-id-1", PyVal.str "action_1", PyVal.str "item-1",
      PyVal.str "u1", PyVal.dict ([] ++ ("k1", PyVal.bool true) :: []), 1760000000000⟩ =
      Except.ok () :=
  C10_bool_context_values_accepted "event-id-1" "action_1" "item-1" "u1" "k1"
    1760000000000 true [] [] rfl rfl rfl rfl rfl rfl
    (fun p hp => absurd hp (List.not_mem_nil p))
    (fun p hp => absurd hp (List.not_mem_nil p))

/-- The amended pattern condition, stated declaratively from the amended
claim's words: the string is 1 to 128 characters of the class
`[.a-zA-Z0-9_-]`, optionally followed by one trailing newline. -/
def matches_alpha_numeric_with_newline (s : String) : Prop :=
  ∃ core : List Char, (s.data = core ∨ s.data = core ++ ['\n']) ∧
    1 ≤ core.length ∧ core.length ≤ 128 ∧ ∀ c ∈ core, isAlphaNumericChar c = true

/-- The embedded `re.match` test agrees with the declarative amended
condition. -/
theorem re_match_alpha_numeric_iff (s : String) :
    re_match_alpha_numeric s = true ↔ matches_alpha_numeric_with_newline s := by
  unfold re_match_alpha_numeric matches_alpha_numeric_with_newline
  rcases hl : s.data.getLast? with _ | c
  · have hnil : s.data = [] := List.getLast?_eq_none_iff.1 hl
    dsimp only
    rw [hnil]
    constructor
    · intro h
      simp at h
    · rintro ⟨core, hcore, h1, -, -⟩
      rcases hcore with h | h
      · rw [← h] at h1
        simp at h1
      · exact absurd h.symm (by simp)
  · dsimp only
    have hne : s.data ≠ [] := by
      intro h
      rw [h] at hl
      simp at hl
    have hgl : s.data.getLast hne = c := by
      have h2 := List.getLast?_eq_getLast s.data hne
      rw [hl] at h2
      exact (Option.some.inj h2).symm
    by_cases hc : c = '\n'
    · subst hc
      rw [if_pos rfl]
      have hdl : s.data.dropLast ++ ['\n'] = s.data := by
        have h1 := List.dropLast_append_getLast hne
        rw [hgl] at h1
        exact h1
      constructor
      · intro h
        simp only [Bool.and_eq_true, decide_eq_true_eq, List.all_eq_true] at h
        exact ⟨s.data.dropLast, Or.inr hdl.symm, h.1.1, h.1.2, h.2⟩
      · rintro ⟨core, hcore, h1, h2, h3⟩
        have hcore' : s.data.dropLast = core := by
          rcases hcore with h | h
          · exfalso
            have hmem : '\n' ∈ core := by
              rw [← h]
              have hm := List.getLast_mem hne
              rw [hgl] at hm
              exact hm
            exact absurd (h3 '\n' hmem) (by decide)
          · rw [h]
            exact List.dropLast_concat
        simp only [Bool.and_eq_true, decide_eq_true_eq, List.all_eq_true, hcore']
        exact ⟨⟨h1, h2⟩, h3⟩
    · rw [if_neg hc]
      constructor
      · intro h
        simp only [Bool.and_eq_true, decide_eq_true_eq, List.all_eq_true] at h
        exact ⟨s.data, Or.inl rfl, h.1.1, h.1.2, h.2⟩
      · rintro ⟨core, hcore, h1, h2, h3⟩
        have hdata : s.data = core := by
          rcases hcore with h | h
          · exact h
          · exfalso
            rw [h, List.getLast?_concat] at hl
            exact hc (Option.some.inj hl).symm
        simp only [Bool.and_eq_true, decide_eq_true_eq, List.all_eq_true, hdata]
        exact ⟨⟨h1, h2⟩, h3⟩

/-- With a valid timestamp and an empty context, `validate` succeeds exactly
when the four identifier fields pass the `re.match` test. -/
theorem validate_str_fields_ok_iff (a b c d : String) (ts : Int)
    (hts : fromtimestamp_ok ts = true) :
    Event.validate ⟨PyVal.str a, PyVal.str b, PyVal.str c, PyVal.str d,
      PyVal.dict [], ts⟩ = Except.ok () ↔
    (re_match_alpha_numeric a = true ∧ re_match_alpha_numeric b = true ∧
     re_match_alpha_numeric c = true ∧ re_match_alpha_numeric d = true) := by
  simp only [Event.validate, check_required_alphanumeric, hts, if_true]
  cases ha : re_match_alpha_numeric a <;>
    cases hb : re_match_alpha_numeric b <;>
      cases hc : re_match_alpha_numeric c <;>
        cases hd : re_match_alpha_numeric d <;>
          simp [validate_context_items]

/-! ## Claim C5 -/

/-- Counterexample to C5 as stated: the id `"abc\n"` contains a character
outside the class `[.a-zA-Z0-9_-]`, yet `validate()` succeeds, because
CPython's `$` also matches just before a single trailing newline. -/
theorem C5_counterexample_trailing_newline_accepted :
    Event.validate ⟨PyVal.str "abc\n", PyVal.str "action_1", PyVal.str "item-1",
      PyVal.str "u1", PyVal.dict [], 1760000000000⟩ = Except.ok () ∧
    '\n' ∈ "abc\n".data ∧ isAlphaNumericChar '\n' = false :=
  ⟨rfl, by decide, rfl⟩

/-- Claim C5 as amended: with a valid timestamp and empty context, the
identifier-field checks succeed iff each of `id`, `action`, `item`, `user` is
a string of 1 to 128 characters of the class `[.a-zA-Z0-9_-]` optionally
followed by a single trailing newline; a `None` field and an empty field
fail. -/
theorem C5_amended_identifier_fields (a b c d : String) (ts : Int)
    (hts : fromtimestamp_ok ts = true) :
    (Event.validate ⟨PyVal.str a, PyVal.str b, PyVal.str c, PyVal.str d,
        PyVal.dict [], ts⟩ = Except.ok () ↔
      (matches_alpha_numeric_with_newline a ∧ matches_alpha_numeric_with_newline b ∧
       matches_alpha_numeric_with_newline c ∧ matches_alpha_numeric_with_newline d)) ∧
    Event.validate ⟨PyVal.none, PyVal.str b, PyVal.str c, PyVal.str d,
      PyVal.dict [], ts⟩ = Except.error "id is required" ∧
    Event.validate ⟨PyVal.str "", PyVal.str b, PyVal.str c, PyVal.str d,
      PyVal.dict [], ts⟩ = Except.error " is an invalid value for id" := by
  refine ⟨?_, rfl, rfl⟩
  rw [validate_str_fields_ok_iff a b c d ts hts]
  simp only [re_match_alpha_numeric_iff]

/-- Witness for the amended C5 at concrete fields (dots included). -/
theorem C5_witness :
    fromtimestamp_ok 1760000000000 = true ∧
    ((Event.validate ⟨PyVal.str "event.id-1", PyVal.str "action_1", PyVal.str "item-1",
        PyVal.str "u1", PyVal.dict [], 1760000000000⟩ = Except.ok () ↔
      (matches_alpha_numeric_with_newline "event.id-1" ∧
       matches_alpha_numeric_with_newline "action_1" ∧
       matches_alpha_numeric_with_newline "item-1" ∧
       matches_alpha_numeric_with_newline "u1")) ∧
    Event.validate ⟨PyVal.none, PyVal.str "action_1", PyVal.str "item-1", PyVal.str "u1",
      PyVal.dict [], 1760000000000⟩ = Except.error "id is required" ∧
    Event.validate ⟨PyVal.str "", PyVal.str "action_1", PyVal.str "item-1", PyVal.str "u1",
      PyVal.dict [], 1760000000000⟩ = Except.error " is an invalid value for id") :=
  ⟨rfl, C5_amended_identifier_fields "event.id-1" "action_1" "item-1" "u1" 1760000000000 rfl⟩

/-- `chars_start_with ['X', '-'] l` succeeds exactly on lists beginning with
`'X', '-'`. -/
theorem chars_start_with_x_dash (l : List Char) :
    chars_start_with ['X', '-'] l = true ↔ ∃ u, l = 'X' :: '-' :: u := by
  cases l with
  | nil => simp [chars_start_with]
  | cons c1 l1 =>
    cases l1 with
    | nil => simp [chars_start_with]
    | cons c2 rest =>
      constructor
      · intro h
        simp only [chars_start_with, Bool.and_eq_true, beq_iff_eq] at h
        exact ⟨rest, by rw [← h.1, ← h.2.1]⟩
      · rintro ⟨u, h⟩
        rw [h]
        rfl

/-- A string extended on the left with the marker starts with the marker. -/
theorem pyStartsWith_x_dash_append (k : String) : pyStartsWith ("X-" ++ k) "X-" = true := by
  obtain ⟨lk⟩ := k
  rfl

/-- Prepending the marker is injective, characterized on raw character
lists. -/
theorem x_dash_append_eq (k : String) (u : List Char) :
    "X-" ++ k = String.mk ('X' :: '-' :: u) ↔ k = String.mk u := by
  obtain ⟨lk⟩ := k
  rw [String.ext_iff, String.ext_iff]
  show 'X' :: '-' :: lk = 'X' :: '-' :: u ↔ lk = u
  simp

/-- Membership in the extracted meta mapping: `(k, v)` is a meta entry
exactly when `("X-" ++ k, v)` is a response header. -/
theorem mem_get_meta_from_response_headers (headers : List (String × String)) (k v : String) :
    (k, v) ∈ get_meta_from_response_headers headers ↔ ("X-" ++ k, v) ∈ headers := by
  induction headers with
  | nil => simp [get_meta_from_response_headers]
  | cons kv t ih =>
    obtain ⟨k0, v0⟩ := kv
    unfold get_meta_from_response_headers at ih ⊢
    rw [List.filterMap_cons]
    dsimp only
    by_cases h : pyStartsWith k0 "X-" = true
    · rw [if_pos h]
      obtain ⟨u, hu⟩ := (chars_start_with_x_dash k0.data).1 h
      obtain ⟨l0⟩ := k0
      change l0 = 'X' :: '-' :: u at hu
      subst hu
      rw [List.mem_cons, List.mem_cons, ih]
      have hrep : replace_first_x_dash ⟨'X' :: '-' :: u⟩ = String.mk u := rfl
      rw [hrep]
      constructor
      · rintro (h1 | h1)
        · left
          rw [Prod.mk.injEq] at h1 ⊢
          exact ⟨(x_dash_append_eq k u).2 h1.1, h1.2⟩
        · right; exact h1
      · rintro (h1 | h1)
        · left
          rw [Prod.mk.injEq] at h1 ⊢
          exact ⟨(x_dash_append_eq k u).1 h1.1, h1.2⟩
        · right; exact h1
    · rw [if_neg h]
      dsimp only
      rw [ih, List.mem_cons]
      constructor
      · intro h1
        right; exact h1
      · rintro (h1 | h1)
        · exfalso
          apply h
          have hfst : "X-" ++ k = k0 := congrArg Prod.fst h1
          rw [← hfst]
          exact pyStartsWith_x_dash_append k
        · exact h1

/-! ## Claim C7 -/

/-- Claim C7: on every successful `rank` call, the result's `meta` mapping
holds exactly the response headers whose names start with `"X-"`, the prefix
stripped once and the value unchanged; headers without the prefix are
absent. -/
theorem C7_meta_is_stripped_x_headers (r : HttpResponse) (pid user : String) (name : PyVal)
    (res : RankResult) (k v : String)
    (h : rank (RequestOutcome.resp r) pid user name = (Except.ok res, 1)) :
    (k, v) ∈ res.meta ↔ ("X-" ++ k, v) ∈ r.headers := by
  have hmeta : res.meta = get_meta_from_response_headers r.headers := by
    unfold rank at h
    dsimp only at h
    split at h
    · exact absurd h (by simp)
    · split at h
      · exact absurd h (by simp)
      · split at h
        · exact absurd h (by simp)
        · simp only [Prod.mk.injEq, Except.ok.injEq] at h
          rw [← h.1]
  rw [hmeta]
  exact mem_get_meta_from_response_headers r.headers k v

/-- Witness for C7 at a concrete successful rank call carrying the header
`X-ADDITIONAL-INFO: some-value`. -/
theorem C7_witness :
    ("ADDITIONAL-INFO", "some-value") ∈
      (RankResult.mk (PyVal.list [PyVal.str "item-3"]) PyVal.none "rank-items" PyVal.none
        [("ADDITIONAL-INFO", "some-value")]).meta ↔
    ("X-" ++ "ADDITIONAL-INFO", "some-value") ∈
      [("X-ADDITIONAL-INFO", "some-value"), ("other-headers", "present")] :=
  C7_meta_is_stripped_x_headers
    ⟨200, true, some (PyVal.dict [("entities", PyVal.list [PyVal.str "item-3"])]),
      [("X-ADDITIONAL-INFO", "some-value"), ("other-headers", "present")]⟩
    "rank-items" "u1" PyVal.none _ "ADDITIONAL-INFO" "some-value" rfl

/-- Every `rank` call issues exactly one HTTP request. -/
theorem rank_request_count (o : RequestOutcome) (pid user : String) (name : PyVal) :
    (rank o pid user name).2 = 1 := by
  unfold rank
  rcases o with m | r
  · rfl
  · dsimp only
    split
    · rfl
    · split
      · rfl
      · split <;> rfl

/-- Every `predict` call issues exactly one HTTP request. -/
theorem predict_request_count (o : RequestOutcome) (pid user : String) (name : PyVal) :
    (predict o pid user name).2 = 1 := by
  unfold predict
  rcases o with m | r
  · rfl
  · dsimp only
    split
    · rfl
    · split
      · rfl
      · split <;> rfl

/-- Every `anticipate` call issues exactly one HTTP request. -/
theorem anticipate_request_count (o : RequestOutcome) (pid user : String) (name : PyVal) :
    (anticipate o pid user name).2 = 1 := by
  unfold anticipate
  rcases o with m | r
  · rfl
  · dsimp only
    split
    · rfl
    · split
      · rfl
      · split <;> rfl

/-- Every `custom` call issues exactly one HTTP request. -/
theorem custom_request_count (o : RequestOutcome) (pid user : String) (name : PyVal) :
    (custom o pid user name).2 = 1 := by
  unfold custom
  rcases o with m | r
  · rfl
  · dsimp only
    split
    · rfl
    · split
      · rfl
      · split <;> rfl

/-- Every `all_predictions` call issues exactly one HTTP request. -/
theorem all_predictions_request_count (o : RequestOutcome) (user : String) :
    (all_predictions o user).2 = 1 := by
  unfold all_predictions
  rcases o with m | r
  · rfl
  · dsimp only
    split
    · rfl
    · split <;> rfl

/-! ## Claim C8 -/

/-- Claim C8: every prediction read (`rank`, `predict`, `anticipate`,
`custom`, `all_predictions`) issues exactly one HTTP request — never a
retry — and when the response has a failure status (4xx/5xx), each fails
immediately with an `IOError` naming the operation and wrapping the
underlying `HTTPError`'s description. -/
theorem C8_prediction_reads_single_request (o : RequestOutcome) (pid user : String)
    (name : PyVal) (r : HttpResponse) :
    ((rank o pid user name).2 = 1 ∧ (predict o pid user name).2 = 1 ∧
     (anticipate o pid user name).2 = 1 ∧ (custom o pid user name).2 = 1 ∧
     (all_predictions o user).2 = 1) ∧
    (o = RequestOutcome.resp r → raise_for_status_fails r.status = true →
      rank o pid user name = (Except.error (PyError.ioError
        ("Unable to make a rank prediction. Error was: " ++ http_error_str r.status)), 1) ∧
      predict o pid user name = (Except.error (PyError.ioError
        ("Unable to make a numerical prediction. Error was: " ++ http_error_str r.status)), 1) ∧
      anticipate o pid user name = (Except.error (PyError.ioError
        ("Unable to make an anticipate prediction. Error was: " ++ http_error_str r.status)), 1) ∧
      custom o pid user name = (Except.error (PyError.ioError
        ("Unable to make a custom prediction. Error was: " ++ http_error_str r.status)), 1) ∧
      all_predictions o user = (Except.error (PyError.ioError
        ("Unable to get all user predictions. Error was: " ++ http_error_str r.status)), 1)) := by
  constructor
  · exact ⟨rank_request_count o pid user name, predict_request_count o pid user name,
      anticipate_request_count o pid user name, custom_request_count o pid user name,
      all_predictions_request_count o user⟩
  · rintro rfl hf
    refine ⟨?_, ?_, ?_, ?_, ?_⟩ <;>
      simp [rank, predict, anticipate, custom, all_predictions, hf]

/-- Witness for C8 at a concrete 500 response. -/
theorem C8_witness :
    (((rank (RequestOutcome.resp ⟨500, false, Option.none, []⟩) "p" "u" PyVal.none).2 = 1 ∧
      (predict (RequestOutcome.resp ⟨500, false, Option.none, []⟩) "p" "u" PyVal.none).2 = 1 ∧
      (anticipate (RequestOutcome.resp ⟨500, false, Option.none, []⟩) "p" "u" PyVal.none).2 = 1 ∧
      (custom (RequestOutcome.resp ⟨500, false, Option.none, []⟩) "p" "u" PyVal.none).2 = 1 ∧
      (all_predictions (RequestOutcome.resp ⟨500, false, Option.none, []⟩) "u").2 = 1) ∧
     (rank (RequestOutcome.resp ⟨500, false, Option.none, []⟩) "p" "u" PyVal.none =
        (Except.error (PyError.ioError
          ("Unable to make a rank prediction. Error was: " ++ http_error_str 500)), 1) ∧
      predict (RequestOutcome.resp ⟨500, false, Option.none, []⟩) "p" "u" PyVal.none =
        (Except.error (PyError.ioError
          ("Unable to make a numerical prediction. Error was: " ++ http_error_str 500)), 1) ∧
      anticipate (RequestOutcome.resp ⟨500, false, Option.none, []⟩) "p" "u" PyVal.none =
        (Except.error (PyError.ioError
          ("Unable to make an anticipate prediction. Error was: " ++ http_error_str 500)), 1) ∧
      custom (RequestOutcome.resp ⟨500, false, Option.none, []⟩) "p" "u" PyVal.none =
        (Except.error (PyError.ioError
          ("Unable to make a custom prediction. Error was: " ++ http_error_str 500)), 1) ∧
      all_predictions (RequestOutcome.resp ⟨500, false, Option.none, []⟩) "u" =
        (Except.error (PyError.ioError
          ("Unable to get all user predictions. Error was: " ++ http_error_str 500)), 1))) := by
  have h := C8_prediction_reads_single_request
    (RequestOutcome.resp ⟨500, false, Option.none, []⟩) "p" "u" PyVal.none
    ⟨500, false, Option.none, []⟩
  exact ⟨h.1, h.2 rfl rfl⟩
